import Mathlib

/-!
# Verification of the school-dash spreadsheet aggregation service

A shallow embedding of the Google Sheets service module of the
MetaShotTechnologies/school-dash repository, together with theorems
checking its natural-language specification.

Modelling conventions:
* A sheet is a `Grid`, a list of rows of string cells (row 0 = header).
  Cells missing at an index (JS `undefined`) are modelled with `Option`
  (`row[i]?`) where the JS code distinguishes `undefined`, and with
  `row.getD i ""` where the JS code coalesces to `''`.
* The Grid Accessor is a total function `read : String → Grid`
  (the JS `readSheet` returns `[]` on failure, never throws); the sheet
  list is passed as an argument (the success path of `getSheetNames`).
* JS numbers are idealised as rationals; `parseFloat(x) || 0` becomes
  `jsToNum`, a decimal parser returning 0 when no numeric prefix exists.
  Non-finite values (`Infinity`) are outside the rational model.
* JS `Map` (insert-overwrites) is modelled as an association list built
  in reverse row order, so `List.lookup` returns the last insertion.
-/

namespace SchoolDash

abbrev Grid := List (List String)

/-- JS `String.prototype.includes`: `needle` occurs as a contiguous
substring of `hay` (the empty needle always occurs). -/
def strContains (hay needle : String) : Bool :=
  (List.range (hay.data.length + 1)).any fun i =>
    needle.data.isPrefixOf (hay.data.drop i)

/-- ASCII lower-casing of one character (the identifiers and headers of
this data set are ASCII; `String.toLower` itself is not
kernel-reducible, so the embedding uses this structural equivalent). -/
def lowerChar (c : Char) : Char :=
  if 'A' ≤ c ∧ c ≤ 'Z' then Char.ofNat (c.toNat + 32) else c

/-- Model of JS `toLowerCase()` (ASCII). -/
def lowerStr (s : String) : String :=
  ⟨s.data.map lowerChar⟩

/-- ASCII upper-casing of one character. -/
def upperChar (c : Char) : Char :=
  if 'a' ≤ c ∧ c ≤ 'z' then Char.ofNat (c.toNat - 32) else c

/-- Model of JS `toUpperCase()` (ASCII). -/
def upperStr (s : String) : String :=
  ⟨s.data.map upperChar⟩

/-- Model of JS `trim()`: strip leading and trailing whitespace
(structural equivalent of `String.trim`). -/
def trimStr (s : String) : String :=
  ⟨((s.data.dropWhile Char.isWhitespace).reverse.dropWhile
      Char.isWhitespace).reverse⟩

/-- Digit list (most significant first) to a natural number. -/
def digitsToNat (ds : List Char) : Nat :=
  ds.foldl (fun n c => 10 * n + (c.toNat - 48)) 0

/-- `10 ^ e` for an integer exponent, as a rational. -/
def pow10 (e : Int) : ℚ :=
  if 0 ≤ e then ((10 : ℚ) ^ e.toNat) else 1 / (10 : ℚ) ^ (-e).toNat

/-- Exponent part of a JS decimal literal: `e`/`E` already consumed;
parses an optional sign and digits.  When no digits follow, JS
`parseFloat` does not consume the exponent, which leaves the value
unchanged — numerically the same as exponent 0, which we return. -/
def parseExponent (cs : List Char) : Int :=
  let (sign, rest) :=
    match cs with
    | '-' :: r => ((-1 : Int), r)
    | '+' :: r => ((1 : Int), r)
    | r => ((1 : Int), r)
  let ds := rest.takeWhile Char.isDigit
  if ds.isEmpty then 0 else sign * (digitsToNat ds : Int)

/-- Model of JS `parseFloat`: skip leading whitespace, optional sign,
then the longest `digits [. digits] [exponent]` prefix; `none` models
`NaN` (no digits at all).  `Infinity` literals are outside the model. -/
def jsParseFloat (s : String) : Option ℚ :=
  let cs := s.data.dropWhile Char.isWhitespace
  let (sign, cs) :=
    match cs with
    | '-' :: r => ((-1 : ℚ), r)
    | '+' :: r => ((1 : ℚ), r)
    | r => ((1 : ℚ), r)
  let intDigits := cs.takeWhile Char.isDigit
  let cs1 := cs.dropWhile Char.isDigit
  let (fracDigits, cs2) :=
    match cs1 with
    | '.' :: r => (r.takeWhile Char.isDigit, r.dropWhile Char.isDigit)
    | r => (([] : List Char), r)
  if intDigits.isEmpty ∧ fracDigits.isEmpty then none
  else
    let mantissa : ℚ :=
      (digitsToNat intDigits : ℚ) +
        (digitsToNat fracDigits : ℚ) / (10 : ℚ) ^ fracDigits.length
    let e : Int :=
      match cs2 with
      | 'e' :: r => parseExponent r
      | 'E' :: r => parseExponent r
      | _ => 0
    some (sign * mantissa * pow10 e)

/-- JS `parseFloat(x) || 0`: numeric coercion with NaN (and hence
non-numeric cells) mapped to 0. -/
def jsToNum (s : String) : ℚ :=
  (jsParseFloat s).getD 0

/-- JS `Math.round(q * 100) / 100` (2-decimal rounding, half toward +∞). -/
def round2 (q : ℚ) : ℚ :=
  ((⌊q * 100 + 1 / 2⌋ : ℤ) : ℚ) / 100

/-- Source `extractUsernameFromLearnerDetails` (README lines 548–557):
returns `null` (here `none`) for a falsy input, otherwise the part of
the trimmed string before the first `@`, or the whole trimmed string
when no `@` is present. -/
def extractUsernameFromLearnerDetails (learnerDetails : String) : Option String :=
  if learnerDetails = "" then none
  else
    let str := trimStr learnerDetails
    match str.data.findIdx? (· = '@') with
    | some i => some ⟨str.data.take i⟩
    | none => some str

/-! ## Header classification

Each finder translates one of the `header.findIndex` expressions that
the source repeats at its call sites. -/

/-- Score-bearing header predicate: contains "score", "mark" or "total"
(case-insensitive). -/
def isScoreHeader (h : String) : Bool :=
  let lower := lowerStr h
  strContains lower "score" || strContains lower "mark" || strContains lower "total"

/-- All score-bearing column indices of a test-sheet header. -/
def scoreIndices (header : List String) : List Nat :=
  ((header.enum.filter fun p => isScoreHeader p.2).map fun p => p.1)

/-- Sum of the numerically coerced cells at the given indices
(the `scoreIndices.reduce` loop of `getSchoolStats`). -/
def rowScoreAt (idxs : List Nat) (row : List String) : ℚ :=
  idxs.foldl (fun sum idx => sum + jsToNum (row.getD idx "")) 0

/-- Row score of a test-sheet row: sum over the score-bearing columns. -/
def rowScore (header row : List String) : ℚ :=
  rowScoreAt (scoreIndices header) row

/-- Mapping-sheet school column: "opengrad"+"school"+"code" first,
falling back to any header containing "school". -/
def mappingSchoolIdIndex (header : List String) : Option Nat :=
  match header.findIdx? (fun h =>
      let lower := lowerStr h
      strContains lower "opengrad" && strContains lower "school" &&
        strContains lower "code") with
  | some i => some i
  | none => header.findIdx? fun h => strContains (lowerStr h) "school"

/-- Mapping-sheet student column: `username`/`emis_id`/"student id"
first, falling back to "student" without "school". -/
def mappingStudentIdIndex (header : List String) : Option Nat :=
  match header.findIdx? (fun h =>
      let lower := lowerStr h
      lower == "username" || lower == "emis_id" ||
        strContains lower "student id") with
  | some i => some i
  | none =>
    header.findIdx? fun h =>
      strContains (lowerStr h) "student" && !strContains (lowerStr h) "school"

/-- Test-sheet "Learner Details" column. -/
def learnerDetailsIndex (header : List String) : Option Nat :=
  header.findIdx? fun h =>
    let lower := lowerStr h
    strContains lower "learner" && strContains lower "details"

/-- Test-sheet fallback student column (any header containing "student"). -/
def testStudentIdIndex (header : List String) : Option Nat :=
  header.findIdx? fun h => strContains (lowerStr h) "student"

/-- Mapping-sheet `UserName` column (exact, case-insensitive). -/
def userNameIndex (header : List String) : Option Nat :=
  header.findIdx? fun h => lowerStr h == "username"

/-- Mapping-sheet school-name column ("school" and "name"). -/
def schoolNameIndex (header : List String) : Option Nat :=
  header.findIdx? fun h =>
    let lower := lowerStr h
    strContains lower "school" && strContains lower "name"

/-- Mapping-sheet OpenGrad school-code column. -/
def opengradCodeIndex (header : List String) : Option Nat :=
  header.findIdx? fun h =>
    let lower := lowerStr h
    strContains lower "opengrad" && strContains lower "school" &&
      strContains lower "code"

/-- Mapping-sheet UDSIE-code column. -/
def udsieCodeIndex (header : List String) : Option Nat :=
  header.findIdx? fun h =>
    let lower := lowerStr h
    strContains lower "udsie" ||
      (strContains lower "school" && strContains lower "code" &&
        !strContains lower "opengrad")

/-- Mapping-sheet EMIS-id column. -/
def emisIdIndex (header : List String) : Option Nat :=
  header.findIdx? fun h => lowerStr h == "emis_id" || strContains (lowerStr h) "emis"

/-- Mapping-sheet student-name column ("student"+"name", not "school"). -/
def studentNameIndex (header : List String) : Option Nat :=
  header.findIdx? fun h =>
    let lower := lowerStr h
    strContains lower "student" && strContains lower "name" &&
      !strContains lower "school"

/-! ## Data model -/

/-- Result of a master-sheet match: the literal cell values of the row. -/
structure StudentRec where
  studentId : String
  schoolId : String
deriving DecidableEq, Repr

/-- One record of the mapping-sheet lookup map. -/
structure LookupRec where
  userName : String
  schoolName : String
  schoolCode : String
  udsieCode : String
  emisId : String
deriving DecidableEq, Repr

/-- The enrichment sub-record attached to a matched test-sheet row. -/
structure EnrichedInfo where
  schoolName : String
  openGradSchoolCode : String
  udsieCode : String
  emisId : String
deriving DecidableEq, Repr

/-- A matched test-sheet row: header→cell pairs in header order (the JS
object keyed by column name; duplicate header names would deduplicate
last-wins in JS, here both pairs are kept) plus the optional
`_enriched` sub-record. -/
structure TestRowData where
  fields : List (String × String)
  enriched : Option EnrichedInfo
deriving DecidableEq, Repr

/-! ## Identity Resolver -/

/-- Source `buildStudentLookupMap` (README lines 294–349): one record
per data row with a non-empty trimmed username cell.  JS `Map.set`
overwrites, so the list is reversed to make `List.lookup` (first match)
return the last inserted record. -/
def buildStudentLookupMap (masterData : Grid) : List (String × LookupRec) :=
  match masterData with
  | [] => []
  | header :: rows =>
    match userNameIndex header with
    | none => []
    | some ui =>
      (rows.filterMap fun row =>
        if row.isEmpty then none
        else
          let u := trimStr (row.getD ui "")
          if u = "" then none
          else
            some (u,
              { userName := u
                schoolName :=
                  match schoolNameIndex header with
                  | some i => trimStr (row.getD i "")
                  | none => ""
                schoolCode :=
                  match opengradCodeIndex header with
                  | some i => trimStr (row.getD i "")
                  | none => ""
                udsieCode :=
                  match udsieCodeIndex header with
                  | some i => trimStr (row.getD i "")
                  | none => ""
                emisId :=
                  match emisIdIndex header with
                  | some i => trimStr (row.getD i "")
                  | none => "" })).reverse

/-! ## Student Matcher — master sheet -/

/-- The row scan of `findStudentById` (README lines 387–397). -/
def findByIdLoop (studentId : String) (sti si : Nat) :
    List (List String) → Option StudentRec
  | [] => none
  | row :: rest =>
    if (row[sti]?.map trimStr) == some studentId then
      some ⟨row.getD sti "", row.getD si ""⟩
    else findByIdLoop studentId sti si rest

/-- Source `findStudentById` (README lines 354–404): first row whose
trimmed student cell equals `studentId`; school cell unchecked. -/
def findStudentByIdGrid (masterData : Grid) (studentId : String) :
    Option StudentRec :=
  match masterData with
  | [] => none
  | header :: rows =>
    match mappingSchoolIdIndex header, mappingStudentIdIndex header with
    | some si, some sti => findByIdLoop studentId sti si rows
    | _, _ => none

/-- The row scan of `findStudentInMaster` (README lines 443–454). -/
def findInMasterLoop (studentId schoolId : String) (sti si : Nat) :
    List (List String) → Option StudentRec
  | [] => none
  | row :: rest =>
    if (row[sti]?.map trimStr) == some studentId &&
        (row[si]?.map trimStr) == some schoolId then
      some ⟨row.getD sti "", row.getD si ""⟩
    else findInMasterLoop studentId schoolId sti si rest

/-- Source `findStudentInMaster` (README lines 409–461): first row
whose trimmed student cell equals `studentId` and whose trimmed school
cell equals `schoolId` (exact, case-sensitive). -/
def findStudentInMasterGrid (masterData : Grid) (studentId schoolId : String) :
    Option StudentRec :=
  match masterData with
  | [] => none
  | header :: rows =>
    match mappingSchoolIdIndex header, mappingStudentIdIndex header with
    | some si, some sti => findInMasterLoop studentId schoolId sti si rows
    | _, _ => none

/-- Source `getStudentsBySchool` (README lines 466–543): every row whose
trimmed, upper-cased school cell equals the normalized school id and
whose trimmed student cell is non-empty. -/
def getStudentsBySchool (masterData : Grid) (schoolId : String) :
    List StudentRec :=
  match masterData with
  | [] => []
  | header :: rows =>
    match mappingSchoolIdIndex header, mappingStudentIdIndex header with
    | some si, some sti =>
      let searchSchoolId := upperStr (trimStr schoolId)
      rows.filterMap fun row =>
        if row.isEmpty then none
        else
          let rowSchoolId := upperStr (trimStr (row.getD si ""))
          let rowStudentId := trimStr (row.getD sti "")
          if rowSchoolId = searchSchoolId ∧ rowStudentId ≠ "" then
            some ⟨row.getD sti "", row.getD si ""⟩
          else none
    | _, _ => []

/-- The distinct school ids listed in the `getSchoolStats` "school not
found" diagnostic (README lines 823–851): non-empty trimmed school
cells, deduplicated, sorted, first 10. -/
def availableSchoolIds (masterData : Grid) : List String :=
  match masterData with
  | [] => []
  | header :: rows =>
    match mappingSchoolIdIndex header with
    | none => []
    | some si =>
      let ids := rows.filterMap fun row =>
        match row[si]? with
        | some c =>
          if c = "" then none
          else if trimStr c = "" then none else some (trimStr c)
        | none => none
      ((ids.dedup.mergeSort fun a b => a ≤ b).take 10)

/-! ## Student Matcher — test sheets -/

/-- Per-row identifiers of `findStudentInTestSheet` (README lines
593–605): `(rowStudentId, userName)`.  With a learner-details column the
cell is trimmed and the username extracted from it; with the fallback
student column the trimmed cell doubles as the username.  `none` models
JS `undefined`/`null`. -/
def testRowKey (ldIdx? siIdx? : Option Nat) (row : List String) :
    Option String × Option String :=
  match ldIdx? with
  | some li =>
    let ld? := row[li]?.map trimStr
    (ld?, match ld? with
          | some ld => extractUsernameFromLearnerDetails ld
          | none => none)
  | none =>
    match siIdx? with
    | some si =>
      let t? := row[si]?.map trimStr
      (t?, t?)
    | none => (none, none)

/-- The three-way match of `findStudentInTestSheet` (README lines
607–612): the (truthy) row identifier equals `studentId`, contains it,
or its extracted username equals it. -/
def testRowMatches (studentId : String) (ldIdx? siIdx? : Option Nat)
    (row : List String) : Bool :=
  let (rowStudentId?, userName?) := testRowKey ldIdx? siIdx? row
  match rowStudentId? with
  | none => false
  | some t =>
    t != "" &&
      (t == studentId || strContains t studentId || userName? == some studentId)

/-- The matched-row payload of `findStudentInTestSheet` (README lines
614–632): every header→cell pair plus the `_enriched` sub-record when
the username is truthy and present in the lookup map. -/
def mkTestRowData (lookup : List (String × LookupRec))
    (header row : List String) (userName? : Option String) : TestRowData :=
  { fields := header.enum.map fun p => (p.2, row.getD p.1 "")
    enriched :=
      match userName? with
      | some u =>
        if u = "" then none
        else
          (lookup.lookup u).map fun m =>
            ⟨m.schoolName, m.schoolCode, m.udsieCode, m.emisId⟩
      | none => none }

/-- The row scan of `findStudentInTestSheet`. -/
def findTestRowLoop (lookup : List (String × LookupRec)) (studentId : String)
    (header : List String) (ldIdx? siIdx? : Option Nat) :
    List (List String) → Option TestRowData
  | [] => none
  | row :: rest =>
    if testRowMatches studentId ldIdx? siIdx? row then
      some (mkTestRowData lookup header row (testRowKey ldIdx? siIdx? row).2)
    else findTestRowLoop lookup studentId header ldIdx? siIdx? rest

/-- Source `findStudentInTestSheet` (README lines 562–641), grid level:
prefers the learner-details column, computing the fallback student
column only when it is absent. -/
def findStudentInTestSheetGrid (lookup : List (String × LookupRec))
    (studentId : String) (testData : Grid) : Option TestRowData :=
  match testData with
  | [] => none
  | header :: rows =>
    let ldIdx? := learnerDetailsIndex header
    let siIdx? :=
      match ldIdx? with
      | some _ => none
      | none => testStudentIdIndex header
    if ldIdx?.isNone ∧ siIdx?.isNone then none
    else findTestRowLoop lookup studentId header ldIdx? siIdx? rows

/-- `findStudentInTestSheet` against the accessor: the lookup map is
built from the Mapping sheet when not supplied (as in `getStudentTests`). -/
def findStudentInTestSheet (read : String → Grid) (studentId testSheetName : String) :
    Option TestRowData :=
  findStudentInTestSheetGrid (buildStudentLookupMap (read "Mapping"))
    studentId (read testSheetName)

/-! ## Attendance Aggregator -/

/-- One entry of the per-test attendance list. -/
structure TestEntry where
  name : String
  status : String
  hasData : Bool
deriving DecidableEq, Repr

/-- Result shape of `getStudentTests`. -/
structure StudentTestsResult where
  student : Option StudentRec
  tests : List TestEntry
  error : Option String
deriving DecidableEq, Repr

/-- Student resolution step of `getStudentTests` (README lines 648–665):
with a school id, both fields must match; otherwise the first row
matching the student id alone. -/
def resolveStudent (read : String → Grid) (studentId : String)
    (schoolId : Option String) : Option StudentRec :=
  match schoolId with
  | some sch => findStudentInMasterGrid (read "Mapping") studentId sch
  | none => findStudentByIdGrid (read "Mapping") studentId

/-- The sheet-name filter of `getStudentTests`/`getSchoolStats`:
everything except "mapping" and "config" (case-insensitive). -/
def isTestSheetName (name : String) : Bool :=
  lowerStr name != "mapping" && lowerStr name != "config"

/-- Source `getStudentTests` (README lines 646–694). -/
def getStudentTests (read : String → Grid) (sheetNames : List String)
    (studentId : String) (schoolId : Option String) : StudentTestsResult :=
  match resolveStudent read studentId schoolId with
  | none =>
    { student := none
      tests := []
      error :=
        match schoolId with
        | some _ => some "Student not found or school ID mismatch"
        | none => some "Student not found" }
  | some student =>
    let testSheets := sheetNames.filter isTestSheetName
    let tests := testSheets.map fun testSheet =>
      let studentData := findStudentInTestSheet read studentId testSheet
      { name := testSheet
        status := if studentData.isSome then "Attended" else "Absent"
        hasData := studentData.isSome }
    { student := some ⟨student.studentId, student.schoolId⟩
      tests := tests
      error := none }

/-! ## Sheet enrichment -/

/-- The header extension of `enrichTestSheet` (README lines 723–733):
each of the four enrichment columns is appended unless already present
(checked against the growing header, as in the source). -/
def enrichHeader (header : List String) : List String :=
  let e1 := if "School Name" ∈ header then header else header ++ ["School Name"]
  let e2 :=
    if "OpenGrad School Code" ∈ e1 then e1 else e1 ++ ["OpenGrad School Code"]
  let e3 := if "UDSIE Code" ∈ e2 then e2 else e2 ++ ["UDSIE Code"]
  if "EMIS ID" ∈ e3 then e3 else e3 ++ ["EMIS ID"]

/-- The per-row extension of `enrichTestSheet` (README lines 738–756). -/
def enrichRow (lookup : List (String × LookupRec)) (li : Nat)
    (row : List String) : List String :=
  let learnerDetails := trimStr (row.getD li "")
  let userName? := extractUsernameFromLearnerDetails learnerDetails
  match userName? with
  | some u =>
    if u = "" then row ++ ["", "", "", ""]
    else
      match lookup.lookup u with
      | some m => row ++ [m.schoolName, m.schoolCode, m.udsieCode, m.emisId]
      | none => row ++ ["", "", "", ""]
  | none => row ++ ["", "", "", ""]

/-- Source `enrichTestSheet` (README lines 699–763), grid level: the
grid is returned unchanged when empty or without a learner-details
column; otherwise the header is extended and every data row gains four
cells. -/
def enrichTestSheetGrid (lookup : List (String × LookupRec)) (testData : Grid) :
    Grid :=
  match testData with
  | [] => []
  | header :: rows =>
    match learnerDetailsIndex header with
    | none => header :: rows
    | some li => enrichHeader header :: rows.map (enrichRow lookup li)

/-- `enrichTestSheet` against the accessor. -/
def enrichTestSheet (read : String → Grid) (testSheetName : String) : Grid :=
  enrichTestSheetGrid (buildStudentLookupMap (read "Mapping")) (read testSheetName)

/-! ## School Aggregator -/

/-- One leaderboard entry. -/
structure TopPerformer where
  studentId : String
  score : ℚ
deriving DecidableEq, Repr

/-- Per-test statistics of `getSchoolStats`. -/
structure TestStat where
  testName : String
  totalStudents : Nat
  attendedCount : Nat
  attendancePercent : ℚ
  avgScore : ℚ
  topPerformers : List TopPerformer
deriving DecidableEq, Repr

/-- School-wide rollup. -/
structure OverallStats where
  avgAttendance : ℚ
  avgScore : ℚ
deriving DecidableEq, Repr

/-- Result shape of `getSchoolStats`: either the aggregate or a
structured error (`stats: null` with an `error` and optional `details`). -/
inductive SchoolStatsResult where
  | ok (schoolId : String) (totalStudents : Nat) (overallStats : OverallStats)
      (testStats : List TestStat) : SchoolStatsResult
  | err (error : String) (details : Option String) : SchoolStatsResult
deriving DecidableEq, Repr

/-- The error message of a result, if any. -/
def SchoolStatsResult.errorMsg : SchoolStatsResult → Option String
  | .ok _ _ _ _ => none
  | .err e _ => some e

/-- The per-test statistics of a result (empty on error). -/
def SchoolStatsResult.testStatsList : SchoolStatsResult → List TestStat
  | .ok _ _ _ ts => ts
  | .err _ _ => []

/-- School-scoped username set and student-name→username side table of
`getSchoolStats` (README lines 892–925): built only when the mapping
sheet has `UserName`, student-name and OpenGrad-school-code columns.
The side table is built front-first so `List.lookup` returns the last
insertion (JS `Map.set` overwrite). -/
def schoolUserNames (masterData : Grid) (schoolId : String) :
    List String × List (String × String) :=
  match masterData with
  | [] => ([], [])
  | header :: rows =>
    match userNameIndex header, studentNameIndex header,
        opengradCodeIndex header with
    | some ui, some ni, some ci =>
      let searchSchoolId := upperStr (trimStr schoolId)
      rows.foldl
        (fun acc row =>
          if row.isEmpty then acc
          else
            let rowSchoolId := upperStr (trimStr (row.getD ci ""))
            let rowUserName := trimStr (row.getD ui "")
            let rowStudentName := trimStr (row.getD ni "")
            if rowSchoolId = searchSchoolId ∧ rowUserName ≠ "" then
              (acc.1 ++ [rowUserName],
                if rowStudentName ≠ "" then
                  (rowStudentName, rowUserName) :: acc.2
                else acc.2)
            else acc)
        ([], [])
    | _, _, _ => ([], [])

/-- Per-row match outcome inside the `getSchoolStats` test-sheet loop. -/
structure StatsRowMatch where
  matched : Bool
  rowUserName : Option String
  rowStudentId : Option String
deriving DecidableEq, Repr

/-- Row matching of the `getSchoolStats` loop (README lines 971–996):
learner-details path matches when the extracted username is truthy and
in the school's username set; fallback path matches on direct id
membership or through the name→username side table. -/
def statsRowMatch (ldIdx? siIdx? : Option Nat) (userNames : List String)
    (nameToUserName : List (String × String)) (studentIds : List String)
    (row : List String) : StatsRowMatch :=
  match ldIdx? with
  | some li =>
    let learnerDetails := trimStr (row.getD li "")
    let userName? := extractUsernameFromLearnerDetails learnerDetails
    { matched :=
        match userName? with
        | some u => u != "" && userNames.contains u
        | none => false
      rowUserName := userName?
      rowStudentId := some learnerDetails }
  | none =>
    match siIdx? with
    | some si =>
      match row[si]?.map trimStr with
      | none => ⟨false, none, none⟩
      | some t =>
        if studentIds.contains t then ⟨true, none, some t⟩
        else if t ≠ "" then
          match nameToUserName.lookup t with
          | some u =>
            if u ≠ "" ∧ userNames.contains u then ⟨true, some u, some t⟩
            else ⟨false, none, some t⟩
          | none => ⟨false, none, some t⟩
        else ⟨false, none, some t⟩
    | none => ⟨false, none, none⟩

/-- JS `rowUserName || rowStudentId` for the leaderboard entry id. -/
def pushStudentId (m : StatsRowMatch) : String :=
  match m.rowUserName with
  | some u => if u ≠ "" then u else m.rowStudentId.getD ""
  | none => m.rowStudentId.getD ""

/-- Accumulator of the `getSchoolStats` row loop. -/
structure RowAcc where
  attendedCount : Nat
  totalScore : ℚ
  scoreCount : Nat
  studentScores : List TopPerformer
deriving DecidableEq, Repr

/-- One iteration of the `getSchoolStats` row loop (README lines
971–1019): a matched row counts as attended; its score joins the
average and the leaderboard only when strictly positive. -/
def accumRow (ldIdx? siIdx? : Option Nat) (userNames : List String)
    (nameToUserName : List (String × String)) (studentIds : List String)
    (sIdxs : List Nat) (acc : RowAcc) (row : List String) : RowAcc :=
  let m := statsRowMatch ldIdx? siIdx? userNames nameToUserName studentIds row
  if m.matched then
    let score := rowScoreAt sIdxs row
    let acc1 := { acc with attendedCount := acc.attendedCount + 1 }
    if 0 < score then
      { acc1 with
        totalScore := acc1.totalScore + score
        scoreCount := acc1.scoreCount + 1
        studentScores := acc1.studentScores ++ [⟨pushStudentId m, score⟩] }
    else acc1
  else acc

/-- Descending-score comparison of the leaderboard sort
(JS `(a, b) => b.score - a.score`). -/
def scoreDescLe (a b : TopPerformer) : Bool :=
  decide (b.score ≤ a.score)

/-- Leaderboard re-resolution (README lines 1033–1039): the canonical
roster id when a roster record matches on trimmed id, else the raw id. -/
def resolveTopPerformer (students : List StudentRec) (s : TopPerformer) :
    TopPerformer :=
  match students.find? fun st => trimStr st.studentId == trimStr s.studentId with
  | some st => ⟨if st.studentId ≠ "" then st.studentId else s.studentId, s.score⟩
  | none => ⟨s.studentId, s.score⟩

/-- The per-test statistic assembled after the `getSchoolStats` row loop
(README lines 1021–1040). -/
def mkTestStat (students : List StudentRec) (testSheet : String)
    (acc : RowAcc) : TestStat :=
  { testName := testSheet
    totalStudents := students.length
    attendedCount := acc.attendedCount
    attendancePercent :=
      round2 ((acc.attendedCount : ℚ) / (students.length : ℚ) * 100)
    avgScore :=
      round2
        (if 0 < acc.scoreCount then acc.totalScore / (acc.scoreCount : ℚ) else 0)
    topPerformers :=
      ((acc.studentScores.mergeSort scoreDescLe).take 5).map
        (resolveTopPerformer students) }

/-- One test sheet of the `getSchoolStats` loop (README lines 933–1041):
`none` models `continue` (empty grid or no identifier column). -/
def processTestSheet (userNames : List String)
    (nameToUserName : List (String × String)) (studentIds : List String)
    (students : List StudentRec) (testSheet : String) (testData : Grid) :
    Option TestStat :=
  match testData with
  | [] => none
  | header :: rows =>
    let ldIdx? := learnerDetailsIndex header
    let siIdx? :=
      match ldIdx? with
      | some _ => none
      | none => testStudentIdIndex header
    if ldIdx?.isNone ∧ siIdx?.isNone then none
    else
      some (mkTestStat students testSheet
        (rows.foldl
          (accumRow ldIdx? siIdx? userNames nameToUserName studentIds
            (scoreIndices header))
          ⟨0, 0, 0, []⟩))

/-- The "school not found" diagnostic text (README lines 853–856). -/
def notFoundDetails (masterData : Grid) : String :=
  let base :=
    "Verify the School ID is correct and exists in the Mapping sheet of your Google Spreadsheet."
  let ids := availableSchoolIds masterData
  if ids.isEmpty then base
  else
    base ++ " Available school IDs (first 10): " ++ String.intercalate ", " ids

/-- The "school not found" error text (README line 859). -/
def notFoundError (schoolId : String) : String :=
  "School \"" ++ schoolId ++ "\" not found or has no students in the Mapping sheet"

/-- Source `getSchoolStats` (README lines 797–1066).  The accessor
initialisation check and the thrown-error boundary are outside the model
(the accessor is a total function here); the missing-school-id check and
the structured "not found" error are kept. -/
def getSchoolStats (read : String → Grid) (sheetNames : List String)
    (schoolId : String) : SchoolStatsResult :=
  if schoolId = "" then .err "School ID is required" none
  else
    let masterData := read "Mapping"
    let students := getStudentsBySchool masterData schoolId
    if students.isEmpty then
      .err (notFoundError schoolId) (some (notFoundDetails masterData))
    else
      let testSheets := sheetNames.filter isTestSheetName
      let userNames := (schoolUserNames masterData schoolId).1
      let nameToUserName := (schoolUserNames masterData schoolId).2
      let studentIds := students.map fun s => trimStr s.studentId
      let testStats := testSheets.filterMap fun testSheet =>
        processTestSheet userNames nameToUserName studentIds students
          testSheet (read testSheet)
      let overallAttendance : ℚ :=
        if testStats.isEmpty then 0
        else (testStats.map (·.attendancePercent)).sum / (testStats.length : ℚ)
      let overallAvgScore : ℚ :=
        if testStats.isEmpty then 0
        else (testStats.map (·.avgScore)).sum / (testStats.length : ℚ)
      .ok schoolId students.length
        ⟨round2 overallAttendance, round2 overallAvgScore⟩ testStats

/-! ## Concrete sample data -/

/-- A small mapping sheet (roster) used in concrete instances. -/
def demoMapping : Grid :=
  [["OpenGrad School Code", "Username", "Student Name"],
   ["SCH1", "STU1", "Alice"],
   ["SCH1", "STU2", "Bob"],
   ["SCH2", "STU3", "Carol"]]

/-- A test sheet where two matched rows carry the same score. -/
def demoTie : Grid :=
  [["Learner Details", "Score"],
   ["STU1@a.com", "5"],
   ["STU2@b.com", "5"]]

/-- A test sheet holding more matched rows than the school roster has
students (a student appears twice). -/
def demoOver : Grid :=
  [["Learner Details", "Score"],
   ["STU1@a.com", "5"],
   ["STU1@b.com", "7"],
   ["STU2@c.com", "1"]]

/-- Demo accessor. -/
def demoRead : String → Grid := fun name =>
  if name = "Mapping" then demoMapping
  else if name = "TieTest" then demoTie
  else if name = "OverTest" then demoOver
  else []

/-- Demo sheet listing. -/
def demoSheetNames : List String := ["Mapping", "TieTest", "OverTest"]

/-- The mapping sheet of the specification's `findInMaster` example. -/
def demoMaster : Grid :=
  [["School Code", "Student ID"],
   ["SCHOOL001", "STU001"],
   ["SCHOOL001", "STU002"],
   ["SCHOOL002", "STU003"]]

/-- The same mapping sheet with a duplicate student id in another
school, exercising first-match resolution. -/
def demoMasterDup : Grid :=
  [["School Code", "Student ID"],
   ["SCHOOL001", "STU001"],
   ["SCHOOL001", "STU002"],
   ["SCHOOL002", "STU003"],
   ["SCHOOL002", "STU001"]]

/-! ## Helper lemmas -/

/-- `indexOf`-then-`take` coincides with `takeWhile` of the negation. -/
theorem take_findIdx?_eq_takeWhile {α : Type} (p : α → Bool) :
    ∀ l : List α,
      (match l.findIdx? p with
       | some i => l.take i
       | none => l) = l.takeWhile fun a => !p a
  | [] => rfl
  | a :: l => by
    rw [List.findIdx?_cons]
    by_cases hp : p a
    · simp [hp]
    · simp only [hp, if_false, Bool.false_eq_true, List.findIdx?_succ]
      have ih := take_findIdx?_eq_takeWhile p l
      cases hfl : l.findIdx? p with
      | some i =>
        rw [hfl] at ih
        simp only [List.takeWhile_cons, hp]
        simpa using ih
      | none =>
        rw [hfl] at ih
        simp only [List.takeWhile_cons, hp]
        simpa using ih

/-- `extractUsernameFromLearnerDetails` on a non-empty string keeps
exactly the characters of the trimmed input before the first `@`. -/
theorem extract_eq_takeWhile (s : String) (h : s ≠ "") :
    extractUsernameFromLearnerDetails s =
      some ⟨(trimStr s).data.takeWhile fun c => !decide (c = '@')⟩ := by
  unfold extractUsernameFromLearnerDetails
  rw [if_neg h]
  have key := take_findIdx?_eq_takeWhile (fun c : Char => decide (c = '@'))
    (trimStr s).data
  cases hf : (trimStr s).data.findIdx? (fun c : Char => decide (c = '@')) with
  | some i =>
    rw [hf] at key
    simp only [hf]
    simp only at key
    rw [key]
  | none =>
    rw [hf] at key
    simp only [hf]
    simp only at key
    rw [← key]

/-- C2, counterexample: on the empty string the function returns the
`null` sentinel (`none`), not the string `""` that the claim demands. -/
theorem extractKey_empty_counterexample :
    extractUsernameFromLearnerDetails "" = none ∧
      extractUsernameFromLearnerDetails "" ≠ some "" :=
  ⟨rfl, by decide⟩

/-- C2 (amended): for every non-empty input, `extractKey` returns the
substring of the trimmed input before the first `@` (the whole trimmed
input when no `@` occurs); for the empty/absent input it returns the
`null` sentinel rather than a string.  The spec's two non-empty examples
hold as written. -/
theorem extractKey_spec :
    (∀ s : String, s ≠ "" →
      extractUsernameFromLearnerDetails s =
        some ⟨(trimStr s).data.takeWhile fun c => c ≠ '@'⟩) ∧
    extractUsernameFromLearnerDetails "TN1015257176@username.com" =
      some "TN1015257176" ∧
    extractUsernameFromLearnerDetails "PLAINID" = some "PLAINID" ∧
    extractUsernameFromLearnerDetails "" = none := by
  refine ⟨fun s h => ?_, by decide, by decide, rfl⟩
  have := extract_eq_takeWhile s h
  simpa [decide_not] using this

/-- C2, witness: the general clause of `extractKey_spec` evaluated at a
concrete email-shaped input. -/
theorem extractKey_spec_witness :
    ("TN1015257176@username.com" : String) ≠ "" ∧
      extractUsernameFromLearnerDetails "TN1015257176@username.com" =
        some ⟨(trimStr "TN1015257176@username.com").data.takeWhile
          fun c => c ≠ '@'⟩ :=
  ⟨by decide, extractKey_spec.1 "TN1015257176@username.com" (by decide)⟩

/-- `findInMasterLoop` is a first-match scan. -/
theorem findInMasterLoop_eq_find? (studentId schoolId : String) (sti si : Nat) :
    ∀ rows : List (List String),
      findInMasterLoop studentId schoolId sti si rows =
        (rows.find? fun row =>
            (row[sti]?.map trimStr) == some studentId &&
              (row[si]?.map trimStr) == some schoolId).map
          fun row => ⟨row.getD sti "", row.getD si ""⟩
  | [] => rfl
  | row :: rest => by
    rw [findInMasterLoop, List.find?_cons]
    by_cases h : ((row[sti]?.map trimStr) == some studentId &&
        (row[si]?.map trimStr) == some schoolId) = true
    · simp [h]
    · simp only [h, if_false, Bool.false_eq_true]
      exact findInMasterLoop_eq_find? studentId schoolId sti si rest

/-- `findByIdLoop` is a first-match scan. -/
theorem findByIdLoop_eq_find? (studentId : String) (sti si : Nat) :
    ∀ rows : List (List String),
      findByIdLoop studentId sti si rows =
        (rows.find? fun row => (row[sti]?.map trimStr) == some studentId).map
          fun row => ⟨row.getD sti "", row.getD si ""⟩
  | [] => rfl
  | row :: rest => by
    rw [findByIdLoop, List.find?_cons]
    by_cases h : ((row[sti]?.map trimStr) == some studentId) = true
    · simp [h]
    · simp only [h, if_false, Bool.false_eq_true]
      exact findByIdLoop_eq_find? studentId sti si rest

/-- C6 (confirmed): with a school id, `findInMaster` returns the first
row whose trimmed student cell equals `studentId` and whose trimmed
school cell equals `schoolId` (exact, case-sensitive `==`), `none`
otherwise; without a school id it returns the first row matching the
student id alone.  The specification's three concrete instances hold,
and a duplicated student id resolves to its first occurrence. -/
theorem findInMaster_spec :
    (∀ (header : List String) (rows : List (List String))
        (studentId schoolId : String) (si sti : Nat),
        mappingSchoolIdIndex header = some si →
        mappingStudentIdIndex header = some sti →
        findStudentInMasterGrid (header :: rows) studentId schoolId =
          (rows.find? fun row =>
              (row[sti]?.map trimStr) == some studentId &&
                (row[si]?.map trimStr) == some schoolId).map
            fun row => ⟨row.getD sti "", row.getD si ""⟩) ∧
    (∀ (header : List String) (rows : List (List String))
        (studentId : String) (si sti : Nat),
        mappingSchoolIdIndex header = some si →
        mappingStudentIdIndex header = some sti →
        findStudentByIdGrid (header :: rows) studentId =
          (rows.find? fun row =>
              (row[sti]?.map trimStr) == some studentId).map
            fun row => ⟨row.getD sti "", row.getD si ""⟩) ∧
    findStudentInMasterGrid demoMaster "STU001" "SCHOOL001" =
      some ⟨"STU001", "SCHOOL001"⟩ ∧
    findStudentInMasterGrid demoMaster "STU001" "SCHOOL002" = none ∧
    findStudentByIdGrid demoMaster "STU001" = some ⟨"STU001", "SCHOOL001"⟩ ∧
    findStudentByIdGrid demoMasterDup "STU001" = some ⟨"STU001", "SCHOOL001"⟩ := by
  refine ⟨?_, ?_, by decide, by decide, by decide, by decide⟩
  · intro header rows studentId schoolId si sti hsi hsti
    simp only [findStudentInMasterGrid, hsi, hsti]
    exact findInMasterLoop_eq_find? studentId schoolId sti si rows
  · intro header rows studentId si sti hsi hsti
    simp only [findStudentByIdGrid, hsi, hsti]
    exact findByIdLoop_eq_find? studentId sti si rows

/-- `findTestRowLoop` is a first-match scan. -/
theorem findTestRowLoop_eq_find? (lookup : List (String × LookupRec))
    (studentId : String) (header : List String) (ldIdx? siIdx? : Option Nat) :
    ∀ rows : List (List String),
      findTestRowLoop lookup studentId header ldIdx? siIdx? rows =
        (rows.find? (testRowMatches studentId ldIdx? siIdx?)).map
          fun row =>
            mkTestRowData lookup header row (testRowKey ldIdx? siIdx? row).2
  | [] => rfl
  | row :: rest => by
    rw [findTestRowLoop, List.find?_cons]
    by_cases h : testRowMatches studentId ldIdx? siIdx? row = true
    · simp [h]
    · simp only [h, if_false, Bool.false_eq_true]
      exact findTestRowLoop_eq_find? lookup studentId header ldIdx? siIdx? rest

/-- C3, counterexample: with studentId `" STU1 "` and a test sheet whose
only learner-details cell is `" STU1 "`, the raw cell equals (and so
contains) the studentId, yet the function returns `none` — the code
compares the trimmed cell, not the raw cell. -/
theorem findInTestSheet_counterexample :
    findStudentInTestSheetGrid [] " STU1 " [["Learner Details"], [" STU1 "]] =
      none ∧
    strContains " STU1 " " STU1 " = true := by
  refine ⟨by decide, by decide⟩

/-- C3 (amended): with a learner-details column, `findInTestSheet`
returns the field map of the first row whose TRIMMED learner-details
cell is non-empty and either equals `studentId`, contains it as a
substring, or has an extracted key equal to it, and `none` when no row
satisfies these; when no learner-details column exists, the same
comparison applies to the fallback student-identifier column's trimmed
cell (whose extracted-key comparison degenerates to equality). -/
theorem findInTestSheet_spec :
    (∀ (lookup : List (String × LookupRec)) (studentId : String)
        (header : List String) (rows : List (List String)) (li : Nat),
        learnerDetailsIndex header = some li →
        findStudentInTestSheetGrid lookup studentId (header :: rows) =
          (rows.find? fun row =>
              match row[li]?.map trimStr with
              | none => false
              | some t =>
                t != "" && (t == studentId || strContains t studentId ||
                  extractUsernameFromLearnerDetails t == some studentId)).map
            fun row =>
              mkTestRowData lookup header row
                (match row[li]?.map trimStr with
                 | some ld => extractUsernameFromLearnerDetails ld
                 | none => none)) ∧
    (∀ (lookup : List (String × LookupRec)) (studentId : String)
        (header : List String) (rows : List (List String)) (si : Nat),
        learnerDetailsIndex header = none →
        testStudentIdIndex header = some si →
        findStudentInTestSheetGrid lookup studentId (header :: rows) =
          (rows.find? fun row =>
              match row[si]?.map trimStr with
              | none => false
              | some t =>
                t != "" && (t == studentId || strContains t studentId ||
                  t == studentId)).map
            fun row => mkTestRowData lookup header row (row[si]?.map trimStr)) := by
  constructor
  · intro lookup studentId header rows li hld
    simp only [findStudentInTestSheetGrid, hld, Option.isNone_some,
      Option.isNone_none, Bool.false_eq_true, false_and, true_and, and_false,
      if_false]
    rw [findTestRowLoop_eq_find? lookup studentId header (some li) none rows]
    have hpred : testRowMatches studentId (some li) none = (fun row =>
        match row[li]?.map trimStr with
        | none => false
        | some t =>
          t != "" && (t == studentId || strContains t studentId ||
            extractUsernameFromLearnerDetails t == some studentId)) := by
      funext row
      simp only [testRowMatches, testRowKey]
      cases h : row[li]?.map trimStr <;> rfl
    have hfun : (fun row : List String =>
        mkTestRowData lookup header row (testRowKey (some li) none row).2) =
        (fun row : List String =>
          mkTestRowData lookup header row
            (match row[li]?.map trimStr with
             | some ld => extractUsernameFromLearnerDetails ld
             | none => none)) := by
      funext row
      rfl
    rw [hpred, hfun]
  · intro lookup studentId header rows si hld hsi
    simp only [findStudentInTestSheetGrid, hld, hsi, Option.isNone_some,
      Option.isNone_none, Bool.false_eq_true, false_and, true_and, and_false,
      if_false]
    rw [findTestRowLoop_eq_find? lookup studentId header none (some si) rows]
    have hpred : testRowMatches studentId none (some si) = (fun row =>
        match row[si]?.map trimStr with
        | none => false
        | some t =>
          t != "" && (t == studentId || strContains t studentId ||
            t == studentId)) := by
      funext row
      simp only [testRowMatches, testRowKey]
      cases h : row[si]?.map trimStr <;> rfl
    have hfun : (fun row : List String =>
        mkTestRowData lookup header row (testRowKey none (some si) row).2) =
        (fun row : List String =>
          mkTestRowData lookup header row (row[si]?.map trimStr)) := by
      funext row
      rfl
    rw [hpred, hfun]

/-- C3, witness: the learner-details clause instantiated on a one-row
test sheet where the extracted key matches. -/
theorem findInTestSheet_spec_witness :
    learnerDetailsIndex ["Learner Details"] = some 0 ∧
    findStudentInTestSheetGrid [] "STU1" [["Learner Details"], ["STU1@x.com"]] =
      (([["STU1@x.com"]] : List (List String)).find? fun row =>
          match row[0]?.map trimStr with
          | none => false
          | some t =>
            t != "" && (t == "STU1" || strContains t "STU1" ||
              extractUsernameFromLearnerDetails t == some "STU1")).map
        fun row =>
          mkTestRowData [] ["Learner Details"] row
            (match row[0]?.map trimStr with
             | some ld => extractUsernameFromLearnerDetails ld
             | none => none) :=
  ⟨by decide,
    findInTestSheet_spec.1 [] "STU1" ["Learner Details"] [["STU1@x.com"]] 0
      (by decide)⟩

/-- C6, witness: the generic clause of `findInMaster_spec` instantiated
on the specification's example mapping sheet. -/
theorem findInMaster_spec_witness :
    mappingSchoolIdIndex ["School Code", "Student ID"] = some 0 ∧
    mappingStudentIdIndex ["School Code", "Student ID"] = some 1 ∧
    findStudentInMasterGrid demoMaster "STU001" "SCHOOL001" =
      ((demoMaster.drop 1).find? fun row =>
          (row[1]?.map trimStr) == some "STU001" &&
            (row[0]?.map trimStr) == some "SCHOOL001").map
        fun row => ⟨row.getD 1 "", row.getD 0 ""⟩ :=
  ⟨by decide, by decide,
    findInMaster_spec.1 ["School Code", "Student ID"]
      (demoMaster.drop 1) "STU001" "SCHOOL001" 0 1 (by decide) (by decide)⟩

/-- C7 (confirmed): for a resolved student, `getStudentTests` filters
out exactly the sheets named "mapping" or "config" (case-insensitive)
and emits one `{name, status, hasData}` entry per remaining sheet in
order, with no early exit; a student matched in no test sheet therefore
yields one "Absent"/`hasData = false` entry per test sheet. -/
theorem getStudentTests_spec :
    ∀ (read : String → Grid) (sheetNames : List String) (studentId : String)
      (schoolId : Option String) (st : StudentRec),
      resolveStudent read studentId schoolId = some st →
      (getStudentTests read sheetNames studentId schoolId =
        { student := some ⟨st.studentId, st.schoolId⟩
          tests := (sheetNames.filter isTestSheetName).map fun testSheet =>
            { name := testSheet
              status :=
                if (findStudentInTestSheet read studentId testSheet).isSome
                then "Attended" else "Absent"
              hasData := (findStudentInTestSheet read studentId testSheet).isSome }
          error := none }) ∧
      ∀ n, n ∈ sheetNames.filter isTestSheetName ↔
        n ∈ sheetNames ∧ lowerStr n ≠ "mapping" ∧ lowerStr n ≠ "config" := by
  intro read sheetNames studentId schoolId st h
  constructor
  · simp only [getStudentTests, h]
  · intro n
    simp [List.mem_filter, isTestSheetName, Bool.and_eq_true, bne_iff_ne,
      and_assoc]

/-- `enrichHeader` appends exactly the four enrichment column names
that are not already present, in order. -/
theorem enrichHeader_eq (header : List String) :
    enrichHeader header =
      header ++ (["School Name", "OpenGrad School Code", "UDSIE Code",
        "EMIS ID"].filter fun c => !header.contains c) := by
  unfold enrichHeader
  by_cases h1 : "School Name" ∈ header <;>
    by_cases h2 : "OpenGrad School Code" ∈ header <;>
      by_cases h3 : "UDSIE Code" ∈ header <;>
        by_cases h4 : "EMIS ID" ∈ header <;>
          simp [h1, h2, h3, h4, List.filter, List.mem_append]

/-- C9, counterexample: a grid with no learner-details column is
returned unchanged — its header gains none of the four enrichment
columns, against the claim's "for every input grid". -/
theorem enrichSheet_counterexample :
    enrichTestSheetGrid [] [["a"], ["1"]] = [["a"], ["1"]] ∧
    (enrichTestSheetGrid [] [["a"], ["1"]]).head? = some ["a"] := by
  refine ⟨by decide, by decide⟩

/-- C9 (amended): `enrichSheet` always preserves the row count; when
the input has a learner-details column its header is extended by
exactly the four named enrichment columns (skipping names already
present) and each data row gains four cells; a grid without a
learner-details column is returned unchanged, header included. -/
theorem enrichSheet_spec :
    ∀ (lookup : List (String × LookupRec)) (testData : Grid),
      (enrichTestSheetGrid lookup testData).length = testData.length ∧
      (∀ (header : List String) (rows : List (List String)),
        testData = header :: rows →
        learnerDetailsIndex header = none →
        enrichTestSheetGrid lookup testData = testData) ∧
      (∀ (header : List String) (rows : List (List String)) (li : Nat),
        testData = header :: rows →
        learnerDetailsIndex header = some li →
        enrichTestSheetGrid lookup testData =
          enrichHeader header :: rows.map (enrichRow lookup li)) ∧
      ∀ header : List String,
        enrichHeader header =
          header ++ (["School Name", "OpenGrad School Code", "UDSIE Code",
            "EMIS ID"].filter fun c => !header.contains c) := by
  intro lookup testData
  refine ⟨?_, ?_, ?_, enrichHeader_eq⟩
  · match testData with
    | [] => rfl
    | header :: rows =>
      unfold enrichTestSheetGrid
      cases h : learnerDetailsIndex header with
      | none => simp [h]
      | some li => simp [h]
  · intro header rows hg hld
    subst hg
    simp [enrichTestSheetGrid, hld]
  · intro header rows li hg hld
    subst hg
    simp [enrichTestSheetGrid, hld]

/-- C9, witness: the learner-details clause of `enrichSheet_spec`
instantiated on a one-row grid. -/
theorem enrichSheet_spec_witness :
    learnerDetailsIndex ["Learner Details"] = some 0 ∧
    enrichTestSheetGrid [] [["Learner Details"], ["x@y"]] =
      enrichHeader ["Learner Details"] ::
        ([["x@y"]] : List (List String)).map (enrichRow [] 0) :=
  ⟨by decide,
    (enrichSheet_spec [] [["Learner Details"], ["x@y"]]).2.2.1
      ["Learner Details"] [["x@y"]] 0 rfl (by decide)⟩

/-- C7, witness: `STU3` is on the roster but absent from both demo test
sheets; the list has one "Absent" entry per test sheet. -/
theorem getStudentTests_spec_witness :
    resolveStudent demoRead "STU3" none = some ⟨"STU3", "SCH2"⟩ ∧
    getStudentTests demoRead demoSheetNames "STU3" none =
      { student := some ⟨"STU3", "SCH2"⟩
        tests := [⟨"TieTest", "Absent", false⟩, ⟨"OverTest", "Absent", false⟩]
        error := none } :=
  ⟨by decide,
    ((getStudentTests_spec demoRead demoSheetNames "STU3" none ⟨"STU3", "SCH2"⟩
        (by decide)).1).trans (by decide)⟩

theorem foldl_add_eq_sum {α : Type} (f : α → ℚ) :
    ∀ (l : List α) (init : ℚ),
      l.foldl (fun s x => s + f x) init = init + (l.map f).sum
  | [], init => by simp
  | x :: l, init => by
    simp only [List.foldl_cons, List.map_cons, List.sum_cons]
    rw [foldl_add_eq_sum f l (init + f x)]
    ring

theorem sum_map_filter {α : Type} (p : α → Bool) (f : α → ℚ) :
    ∀ l : List α,
      ((l.filter p).map f).sum = (l.map fun x => if p x then f x else 0).sum
  | [] => rfl
  | x :: l => by
    by_cases h : p x <;>
      simp [List.filter_cons, h, sum_map_filter p f l]

/-- C5 (confirmed): the row score used by `getSchoolStats` equals the
sum, over every column of the header, of the numerically coerced cell
when the header contains "score", "mark" or "total" (case-insensitive)
and 0 otherwise — so exactly the keyword-matching columns contribute;
and `scoreIndices` holds exactly the indices of keyword-matching
headers. -/
theorem rowScore_spec :
    (∀ header row : List String,
      rowScoreAt (scoreIndices header) row =
        (header.enum.map fun p =>
          if isScoreHeader p.2 then jsToNum (row.getD p.1 "") else 0).sum) ∧
    ∀ (header : List String) (i : Nat),
      i ∈ scoreIndices header ↔
        ∃ h : String, header[i]? = some h ∧ isScoreHeader h = true := by
  constructor
  · intro header row
    unfold rowScoreAt scoreIndices
    rw [foldl_add_eq_sum (fun idx => jsToNum (row.getD idx ""))]
    rw [zero_add, List.map_map]
    exact sum_map_filter (fun p => isScoreHeader p.2)
      (fun p => jsToNum (row.getD p.1 "")) header.enum
  · intro header i
    unfold scoreIndices
    simp only [List.mem_map, List.mem_filter]
    constructor
    · rintro ⟨⟨j, s⟩, ⟨hmem, hscore⟩, rfl⟩
      rw [List.mk_mem_enum_iff_getElem?] at hmem
      exact ⟨s, hmem, hscore⟩
    · rintro ⟨s, hget, hscore⟩
      refine ⟨(i, s), ⟨?_, hscore⟩, rfl⟩
      rw [List.mk_mem_enum_iff_getElem?]
      exact hget


/-- Every per-test statistic of a `getSchoolStats` result comes from a
successful `processTestSheet` over a non-empty roster. -/
theorem mem_testStats_exists {read : String → Grid} {sheetNames : List String}
    {schoolId : String} {stat : TestStat}
    (h : stat ∈ (getSchoolStats read sheetNames schoolId).testStatsList) :
    ∃ (userNames : List String) (nameToUserName : List (String × String))
      (studentIds : List String) (students : List StudentRec)
      (testSheet : String) (testData : Grid),
      students ≠ [] ∧
      processTestSheet userNames nameToUserName studentIds students testSheet
        testData = some stat := by
  unfold getSchoolStats at h
  by_cases h0 : schoolId = ""
  · rw [if_pos h0] at h
    simp [SchoolStatsResult.testStatsList] at h
  · rw [if_neg h0] at h
    by_cases h1 : (getStudentsBySchool (read "Mapping") schoolId).isEmpty
    · simp only [h1, if_true, SchoolStatsResult.testStatsList] at h
      simp at h
    · simp only [h1, Bool.false_eq_true, if_false,
        SchoolStatsResult.testStatsList] at h
      rw [List.mem_filterMap] at h
      obtain ⟨ts, hts, hp⟩ := h
      refine ⟨_, _, _, _, ts, read ts, ?_, hp⟩
      intro hempty
      rw [hempty] at h1
      simp at h1


/-- A successful `processTestSheet` produces exactly the statistic
assembled from the row-loop accumulator. -/
theorem processTestSheet_eq_some {userNames : List String}
    {nameToUserName : List (String × String)} {studentIds : List String}
    {students : List StudentRec} {testSheet : String} {testData : Grid}
    {stat : TestStat}
    (h : processTestSheet userNames nameToUserName studentIds students
        testSheet testData = some stat) :
    ∃ (header : List String) (rows : List (List String))
      (ldIdx? siIdx? : Option Nat),
      stat = mkTestStat students testSheet
        (rows.foldl
          (accumRow ldIdx? siIdx? userNames nameToUserName studentIds
            (scoreIndices header))
          ⟨0, 0, 0, []⟩) := by
  match testData with
  | [] => simp [processTestSheet] at h
  | header :: rows =>
    cases hld : learnerDetailsIndex header with
    | some li =>
      simp only [processTestSheet, hld, Option.isNone_some, Option.isNone_none,
        Bool.false_eq_true, false_and, and_false, if_false,
        Option.some.injEq] at h
      exact ⟨header, rows, some li, none, h.symm⟩
    | none =>
      cases hsi : testStudentIdIndex header with
      | some si =>
        simp only [processTestSheet, hld, hsi, Option.isNone_some,
          Option.isNone_none, Bool.false_eq_true, false_and, and_false,
          true_and, if_false, Option.some.injEq] at h
        exact ⟨header, rows, none, some si, h.symm⟩
      | none =>
        simp only [processTestSheet, hld, hsi, Option.isNone_none, true_and,
          if_true] at h
        cases h

/-- A row whose summed score is not strictly positive leaves the score
accumulators (total, count, leaderboard) unchanged. -/
theorem accumRow_scoreCount_of_nonpos (ldIdx? siIdx? : Option Nat)
    (userNames : List String) (nameToUserName : List (String × String))
    (studentIds : List String) (sIdxs : List Nat) (acc : RowAcc)
    (row : List String) (hs : rowScoreAt sIdxs row ≤ 0) :
    (accumRow ldIdx? siIdx? userNames nameToUserName studentIds sIdxs acc
        row).totalScore = acc.totalScore ∧
    (accumRow ldIdx? siIdx? userNames nameToUserName studentIds sIdxs acc
        row).scoreCount = acc.scoreCount ∧
    (accumRow ldIdx? siIdx? userNames nameToUserName studentIds sIdxs acc
        row).studentScores = acc.studentScores := by
  unfold accumRow
  by_cases hm : (statsRowMatch ldIdx? siIdx? userNames nameToUserName
      studentIds row).matched
  · simp [hm, not_lt.mpr hs]
  · simp [hm]

/-- One loop step preserves strict positivity of the accumulated
leaderboard scores. -/
theorem accumRow_scores_pos (ldIdx? siIdx? : Option Nat)
    (userNames : List String) (nameToUserName : List (String × String))
    (studentIds : List String) (sIdxs : List Nat) (acc : RowAcc)
    (row : List String)
    (hinv : ∀ p ∈ acc.studentScores, 0 < p.score) :
    ∀ p ∈ (accumRow ldIdx? siIdx? userNames nameToUserName studentIds sIdxs
        acc row).studentScores, 0 < p.score := by
  unfold accumRow
  by_cases hm : (statsRowMatch ldIdx? siIdx? userNames nameToUserName
      studentIds row).matched
  · by_cases hs : 0 < rowScoreAt sIdxs row
    · simp only [hm, hs, if_true]
      intro p hp
      rw [List.mem_append] at hp
      rcases hp with hp | hp
      · exact hinv p hp
      · rw [List.mem_singleton] at hp
        rw [hp]
        exact hs
    · simp only [hm, hs, if_true, if_false]
      exact hinv
  · simp only [hm, Bool.false_eq_true, if_false]
    exact hinv

/-- The whole row loop preserves strict positivity of the accumulated
leaderboard scores. -/
theorem foldl_scores_pos (ldIdx? siIdx? : Option Nat)
    (userNames : List String) (nameToUserName : List (String × String))
    (studentIds : List String) (sIdxs : List Nat) :
    ∀ (rows : List (List String)) (acc : RowAcc),
      (∀ p ∈ acc.studentScores, 0 < p.score) →
      ∀ p ∈ (rows.foldl
          (accumRow ldIdx? siIdx? userNames nameToUserName studentIds sIdxs)
          acc).studentScores, 0 < p.score
  | [], acc, hinv => hinv
  | row :: rest, acc, hinv => by
    rw [List.foldl_cons]
    exact foldl_scores_pos ldIdx? siIdx? userNames nameToUserName studentIds
      sIdxs rest _
      (accumRow_scores_pos ldIdx? siIdx? userNames nameToUserName studentIds
        sIdxs acc row hinv)


/-- Leaderboard re-resolution never changes the score. -/
theorem resolveTopPerformer_score (students : List StudentRec)
    (s : TopPerformer) : (resolveTopPerformer students s).score = s.score := by
  unfold resolveTopPerformer
  cases h : students.find? fun st => trimStr st.studentId == trimStr s.studentId with
  | none => rfl
  | some st => by_cases h2 : st.studentId ≠ "" <;> simp [h2]

/-- The descending-score comparison is transitive. -/
theorem scoreDescLe_trans : ∀ a b c : TopPerformer,
    scoreDescLe a b → scoreDescLe b c → scoreDescLe a c := by
  intro a b c hab hbc
  simp only [scoreDescLe, decide_eq_true_eq] at hab hbc ⊢
  exact le_trans hbc hab

/-- The descending-score comparison is total. -/
theorem scoreDescLe_total : ∀ a b : TopPerformer,
    scoreDescLe a b || scoreDescLe b a := by
  intro a b
  simp only [scoreDescLe, Bool.or_eq_true, decide_eq_true_eq]
  exact le_total b.score a.score

/-- The assembled leaderboard has at most 5 entries, is sorted by
non-increasing score, and — when the accumulator only holds strictly
positive scores — contains only strictly positive scores. -/
theorem mkTestStat_topPerformers (students : List StudentRec)
    (testSheet : String) (acc : RowAcc)
    (hpos : ∀ p ∈ acc.studentScores, 0 < p.score) :
    (mkTestStat students testSheet acc).topPerformers.length ≤ 5 ∧
    (mkTestStat students testSheet acc).topPerformers.Pairwise
      (fun a b => b.score ≤ a.score) ∧
    ∀ p ∈ (mkTestStat students testSheet acc).topPerformers, 0 < p.score := by
  unfold mkTestStat
  simp only
  refine ⟨?_, ?_, ?_⟩
  · rw [List.length_map, List.length_take]
    exact min_le_left 5 _
  · have hsorted := List.sorted_mergeSort scoreDescLe_trans scoreDescLe_total
      acc.studentScores
    have htake := hsorted.sublist (List.take_sublist 5 _)
    rw [List.pairwise_map]
    refine htake.imp ?_
    intro a b hab
    rw [resolveTopPerformer_score, resolveTopPerformer_score]
    simpa [scoreDescLe] using hab
  · intro p hp
    rw [List.mem_map] at hp
    obtain ⟨q, hq, rfl⟩ := hp
    have hq2 : q ∈ acc.studentScores.mergeSort scoreDescLe :=
      List.mem_of_mem_take hq
    rw [List.mem_mergeSort] at hq2
    rw [resolveTopPerformer_score]
    exact hpos q hq2

/-- Two-decimal rounding preserves non-negativity. -/
theorem round2_nonneg {q : ℚ} (h : 0 ≤ q) : 0 ≤ round2 q := by
  unfold round2
  have h1 : (0 : ℤ) ≤ ⌊q * 100 + 1 / 2⌋ := by
    apply Int.le_floor.mpr
    push_cast
    linarith
  apply div_nonneg _ (by norm_num : (0 : ℚ) ≤ 100)
  exact_mod_cast h1

/-- Two-decimal rounding preserves the bound 100. -/
theorem round2_le_100 {q : ℚ} (h : q ≤ 100) : round2 q ≤ 100 := by
  unfold round2
  have h1 : ⌊q * 100 + 1 / 2⌋ ≤ ⌊(20001 / 2 : ℚ)⌋ :=
    Int.floor_le_floor (by linarith)
  have h2 : ⌊(20001 / 2 : ℚ)⌋ = 10000 := by
    rw [Int.floor_eq_iff]
    norm_num
  rw [div_le_iff₀ (by norm_num : (0 : ℚ) < 100)]
  have h3 : (⌊q * 100 + 1 / 2⌋ : ℚ) ≤ 10000 := by
    rw [h2] at h1
    exact_mod_cast h1
  linarith


/-- C1, counterexample: on a school with 2 roster students whose test
sheet holds 3 matching rows (one student twice), the computed
attendancePercent is 150, outside the claimed 0–100 range. -/
theorem attendancePercent_counterexample :
    (getSchoolStats demoRead demoSheetNames "SCH1").testStatsList.map
      (fun s => s.attendancePercent) = [100, 150] ∧
    ¬ ((150 : ℚ) ≤ 100) := by
  refine ⟨by with_unfolding_all decide, by norm_num⟩

/-- C1 (amended): every per-test attendancePercent equals the 2-decimal
rounding of attendedCount / totalStudents * 100 and is always ≥ 0; it is
≤ 100 whenever the matched-row count does not exceed the roster size,
but can exceed 100 when a test sheet holds more matching rows than the
school has roster entries. -/
theorem attendancePercent_bounds :
    ∀ (read : String → Grid) (sheetNames : List String) (schoolId : String)
      (stat : TestStat),
      stat ∈ (getSchoolStats read sheetNames schoolId).testStatsList →
      0 ≤ stat.attendancePercent ∧
        (stat.attendedCount ≤ stat.totalStudents →
          stat.attendancePercent ≤ 100) := by
  intro read sheetNames schoolId stat hmem
  obtain ⟨un, ntu, sids, students, ts, grid, hne, hp⟩ :=
    mem_testStats_exists hmem
  obtain ⟨header, rows, ld, si, hstat⟩ := processTestSheet_eq_some hp
  subst hstat
  simp only [mkTestStat]
  constructor
  · apply round2_nonneg
    positivity
  · intro hle
    apply round2_le_100
    have hq : (0 : ℚ) < (students.length : ℚ) := by
      exact_mod_cast List.length_pos.mpr hne
    have h1 : (((rows.foldl
        (accumRow ld si un ntu sids (scoreIndices header))
        ⟨0, 0, 0, []⟩).attendedCount : ℚ) / (students.length : ℚ)) ≤ 1 := by
      rw [div_le_one hq]
      exact_mod_cast hle
    nlinarith


/-- C1, witness: the bound instantiated on the first demo test
statistic. -/
theorem attendancePercent_bounds_witness :
    ((getSchoolStats demoRead demoSheetNames "SCH1").testStatsList.headD
        ⟨"", 0, 0, 0, 0, []⟩) ∈
      (getSchoolStats demoRead demoSheetNames "SCH1").testStatsList ∧
    (0 ≤ ((getSchoolStats demoRead demoSheetNames "SCH1").testStatsList.headD
        ⟨"", 0, 0, 0, 0, []⟩).attendancePercent ∧
      (((getSchoolStats demoRead demoSheetNames "SCH1").testStatsList.headD
          ⟨"", 0, 0, 0, 0, []⟩).attendedCount ≤
        ((getSchoolStats demoRead demoSheetNames "SCH1").testStatsList.headD
          ⟨"", 0, 0, 0, 0, []⟩).totalStudents →
        ((getSchoolStats demoRead demoSheetNames "SCH1").testStatsList.headD
          ⟨"", 0, 0, 0, 0, []⟩).attendancePercent ≤ 100)) :=
  ⟨by with_unfolding_all decide,
    attendancePercent_bounds demoRead demoSheetNames "SCH1" _
      (by with_unfolding_all decide)⟩

/-- C4, counterexample: two matched rows with equal score 5 produce the
leaderboard [5, 5], which is not strictly descending. -/
theorem topPerformers_counterexample :
    (getSchoolStats demoRead demoSheetNames "SCH1").testStatsList.map
      (fun s => s.topPerformers.map fun p => p.score) = [[5, 5], [7, 5, 1]] ∧
    ¬ ∀ stat ∈ (getSchoolStats demoRead demoSheetNames "SCH1").testStatsList,
        stat.topPerformers.Pairwise fun a b => b.score < a.score := by
  refine ⟨by with_unfolding_all decide, by with_unfolding_all decide⟩

/-- C4 (amended): every per-test topPerformers list has at most 5
entries and is sorted by NON-INCREASING score (ties are kept, so the
order is not strictly descending); a row score of exactly 0 never
appears in topPerformers and never increments avgScore's denominator
(`scoreCount`). -/
theorem topPerformers_spec :
    (∀ (read : String → Grid) (sheetNames : List String) (schoolId : String)
        (stat : TestStat),
      stat ∈ (getSchoolStats read sheetNames schoolId).testStatsList →
      stat.topPerformers.length ≤ 5 ∧
        stat.topPerformers.Pairwise (fun a b => b.score ≤ a.score) ∧
        ∀ p ∈ stat.topPerformers, p.score ≠ 0) ∧
    ∀ (ldIdx? siIdx? : Option Nat) (userNames : List String)
      (nameToUserName : List (String × String)) (studentIds : List String)
      (sIdxs : List Nat) (acc : RowAcc) (row : List String),
      rowScoreAt sIdxs row = 0 →
      (accumRow ldIdx? siIdx? userNames nameToUserName studentIds sIdxs acc
          row).scoreCount = acc.scoreCount ∧
      (accumRow ldIdx? siIdx? userNames nameToUserName studentIds sIdxs acc
          row).studentScores = acc.studentScores := by
  constructor
  · intro read sheetNames schoolId stat hmem
    obtain ⟨un, ntu, sids, students, ts, grid, hne, hp⟩ :=
      mem_testStats_exists hmem
    obtain ⟨header, rows, ld, si, hstat⟩ := processTestSheet_eq_some hp
    subst hstat
    have hpos := foldl_scores_pos ld si un ntu sids (scoreIndices header) rows
      ⟨0, 0, 0, []⟩ (by intro p hp2; simp at hp2)
    have h := mkTestStat_topPerformers students ts _ hpos
    exact ⟨h.1, h.2.1, fun p hp2 => (h.2.2 p hp2).ne'⟩
  · intro ldIdx? siIdx? userNames nameToUserName studentIds sIdxs acc row hs
    have h := accumRow_scoreCount_of_nonpos ldIdx? siIdx? userNames
      nameToUserName studentIds sIdxs acc row (le_of_eq hs)
    exact ⟨h.2.1, h.2.2⟩

/-- C4, witness: a matched row summing to score 0 leaves `scoreCount`
and the leaderboard accumulator unchanged. -/
theorem topPerformers_spec_witness :
    rowScoreAt [1] ["STU1@a.com", "0"] = 0 ∧
    ((accumRow (some 0) none ["STU1"] [] ["STU1"] [1] ⟨0, 0, 0, []⟩
        ["STU1@a.com", "0"]).scoreCount = (0 : Nat) ∧
      (accumRow (some 0) none ["STU1"] [] ["STU1"] [1] ⟨0, 0, 0, []⟩
        ["STU1@a.com", "0"]).studentScores = ([] : List TopPerformer)) :=
  ⟨by with_unfolding_all decide,
    topPerformers_spec.2 (some 0) none ["STU1"] [] ["STU1"] [1] ⟨0, 0, 0, []⟩
      ["STU1@a.com", "0"] (by with_unfolding_all decide)⟩

/-- C10 (confirmed): the accumulation guard is `score > 0`, so a
matched row with a negative (or zero) summed score is excluded from the
average-score total, from `scoreCount`, and from the leaderboard, and
every topPerformers entry has a strictly positive score. -/
theorem positiveScore_policy :
    (∀ (read : String → Grid) (sheetNames : List String) (schoolId : String)
        (stat : TestStat) (p : TopPerformer),
      stat ∈ (getSchoolStats read sheetNames schoolId).testStatsList →
      p ∈ stat.topPerformers → 0 < p.score) ∧
    ∀ (ldIdx? siIdx? : Option Nat) (userNames : List String)
      (nameToUserName : List (String × String)) (studentIds : List String)
      (sIdxs : List Nat) (acc : RowAcc) (row : List String),
      rowScoreAt sIdxs row ≤ 0 →
      (accumRow ldIdx? siIdx? userNames nameToUserName studentIds sIdxs acc
          row).totalScore = acc.totalScore ∧
      (accumRow ldIdx? siIdx? userNames nameToUserName studentIds sIdxs acc
          row).scoreCount = acc.scoreCount ∧
      (accumRow ldIdx? siIdx? userNames nameToUserName studentIds sIdxs acc
          row).studentScores = acc.studentScores := by
  constructor
  · intro read sheetNames schoolId stat p hmem hp2
    obtain ⟨un, ntu, sids, students, ts, grid, hne, hpr⟩ :=
      mem_testStats_exists hmem
    obtain ⟨header, rows, ld, si, hstat⟩ := processTestSheet_eq_some hpr
    subst hstat
    have hpos := foldl_scores_pos ld si un ntu sids (scoreIndices header) rows
      ⟨0, 0, 0, []⟩ (by intro q hq; simp at hq)
    exact (mkTestStat_topPerformers students ts _ hpos).2.2 p hp2
  · intro ldIdx? siIdx? userNames nameToUserName studentIds sIdxs acc row hs
    exact accumRow_scoreCount_of_nonpos ldIdx? siIdx? userNames nameToUserName
      studentIds sIdxs acc row hs

/-- C10, witness: a matched row summing to -5 leaves all three score
accumulators unchanged. -/
theorem positiveScore_policy_witness :
    rowScoreAt [1] ["STU1@a.com", "-5"] ≤ 0 ∧
    ((accumRow (some 0) none ["STU1"] [] ["STU1"] [1] ⟨0, 0, 0, []⟩
        ["STU1@a.com", "-5"]).totalScore = (0 : ℚ) ∧
      (accumRow (some 0) none ["STU1"] [] ["STU1"] [1] ⟨0, 0, 0, []⟩
        ["STU1@a.com", "-5"]).scoreCount = (0 : Nat) ∧
      (accumRow (some 0) none ["STU1"] [] ["STU1"] [1] ⟨0, 0, 0, []⟩
        ["STU1@a.com", "-5"]).studentScores = ([] : List TopPerformer)) :=
  ⟨by with_unfolding_all decide,
    positiveScore_policy.2 (some 0) none ["STU1"] [] ["STU1"] [1] ⟨0, 0, 0, []⟩
      ["STU1@a.com", "-5"] (by with_unfolding_all decide)⟩

/-- C8, counterexample: the error string is
`School "<id>" not found or has no students in the Mapping sheet`, not
the claimed exact text `School not found or has no students`. -/
theorem schoolNotFound_counterexample :
    (getSchoolStats demoRead demoSheetNames "NOPE").errorMsg =
      some "School \"NOPE\" not found or has no students in the Mapping sheet" ∧
    (getSchoolStats demoRead demoSheetNames "NOPE").errorMsg ≠
      some "School not found or has no students" := by
  refine ⟨by with_unfolding_all decide, by with_unfolding_all decide⟩

/-- C8 (amended): when no mapping row matches the school id, the
result is a structured (non-thrown) error whose message is
`School "<schoolId>" not found or has no students in the Mapping sheet`
and whose details list the known school ids, at most 10 of them. -/
theorem schoolNotFound_spec :
    ∀ (read : String → Grid) (sheetNames : List String) (schoolId : String),
      schoolId ≠ "" →
      getStudentsBySchool (read "Mapping") schoolId = [] →
      getSchoolStats read sheetNames schoolId =
        .err (notFoundError schoolId)
          (some (notFoundDetails (read "Mapping"))) ∧
      (availableSchoolIds (read "Mapping")).length ≤ 10 := by
  intro read sheetNames schoolId h0 h1
  constructor
  · unfold getSchoolStats
    rw [if_neg h0]
    simp only [h1, List.isEmpty_nil, if_true]
  · unfold availableSchoolIds
    cases hgrid : read "Mapping" with
    | nil => simp
    | cons header rows =>
      cases hsi : mappingSchoolIdIndex header with
      | none => simp [hsi]
      | some si =>
        simp only [hsi]
        rw [List.length_take]
        exact min_le_left _ _

/-- C8, witness: the not-found result on the demo mapping sheet. -/
theorem schoolNotFound_spec_witness :
    ("NOPE" : String) ≠ "" ∧
    getStudentsBySchool (demoRead "Mapping") "NOPE" = [] ∧
    (getSchoolStats demoRead demoSheetNames "NOPE" =
        .err (notFoundError "NOPE")
          (some (notFoundDetails (demoRead "Mapping"))) ∧
      (availableSchoolIds (demoRead "Mapping")).length ≤ 10) :=
  ⟨by decide, by decide,
    schoolNotFound_spec demoRead demoSheetNames "NOPE" (by decide) (by decide)⟩

end SchoolDash
